import Mathlib

/-!
Verification of the Crop Suitability Scoring & Risk-Adjustment Engine.

Shallow embedding of the decision core of the repository:
* `predict_crops_simple` (src/simple_predictor.py): the rule-based scorer;
* `calculate_risk_scores` and `get_risk_adjusted_crops`
  (src/modules/weather.py): the climate risk estimator and the
  risk-adjusted ranker;
* the classifier-output reduction inlined in the `predictcrop` route
  (src/app.py).

Python floats are modelled as exact rationals, Python ints as `Int`/`Nat`.
Python `round` (round half to even) is modelled by `pyRound`.  Python's
`sorted` (stable, and stable also under `reverse=True`) is modelled by
`List.mergeSort` with the corresponding boolean relation, which is stable.
-/

namespace CropAdvisor

attribute [local semireducible] Rat.add Rat.mul Rat.sub Rat.inv Rat.ofScientific

attribute [local semireducible] List.merge List.mergeSort

/-- Python's built-in `max` on two rationals. -/
def qmax (a b : ℚ) : ℚ := if a ≤ b then b else a

/-- Python's built-in `min` on two rationals. -/
def qmin (a b : ℚ) : ℚ := if a ≤ b then a else b

/-- Python's built-in `min` on two integers. -/
def imin (a b : ℤ) : ℤ := if a ≤ b then a else b

/-- Python's `str.lower`, restricted to ASCII (which covers every crop
name appearing in the catalog and in the risk rules). -/
def pyLower (s : String) : String :=
  ⟨s.data.map (fun c => if c.isUpper then Char.ofNat (c.toNat + 32) else c)⟩

/-- Python's `round` to the nearest integer, ties to even (banker's
rounding), on exact rationals. -/
def pyRound (q : ℚ) : ℤ :=
  let f := ⌊q⌋
  let r := q - f
  if r < 1/2 then f
  else if 1/2 < r then f + 1
  else if f % 2 = 0 then f else f + 1

/-- One crop's requirement profile, as stored in the `crops_db` literal of
`predict_crops_simple` (src/simple_predictor.py). -/
structure CropReq where
  nLo : ℚ
  nHi : ℚ
  pLo : ℚ
  pHi : ℚ
  kLo : ℚ
  kHi : ℚ
  tLo : ℚ
  tHi : ℚ
  rainfallMin : ℚ
  phLo : ℚ
  phHi : ℚ
  soils : List String
  seasons : List String
deriving DecidableEq

/-- The `crops_db` dictionary of `predict_crops_simple`, in Python's
(insertion) iteration order. -/
def crops_db : List (String × CropReq) :=
  [ ("Rice",      ⟨80, 120, 40, 60, 40, 60, 20, 35, 1000, 11/2, 7,
                   ["Clayey", "Loamy"], ["Kharif", "Monsoon"]⟩),
    ("Wheat",     ⟨100, 140, 40, 80, 40, 80, 15, 25, 500, 6, 15/2,
                   ["Loamy", "Clayey"], ["Rabi", "Winter"]⟩),
    ("Maize",     ⟨60, 100, 30, 60, 30, 60, 20, 30, 600, 11/2, 15/2,
                   ["Loamy", "Sandy", "Black"], ["Kharif", "Summer"]⟩),
    ("Cotton",    ⟨80, 120, 40, 80, 40, 80, 21, 35, 600, 6, 8,
                   ["Black", "Alluvial"], ["Kharif", "Summer"]⟩),
    ("Millets",   ⟨40, 80, 20, 40, 20, 40, 25, 35, 300, 5, 15/2,
                   ["Sandy", "Red", "Loamy"], ["Kharif", "Summer"]⟩),
    ("Pulses",    ⟨20, 60, 40, 80, 20, 60, 20, 30, 400, 6, 15/2,
                   ["Loamy", "Black", "Red"], ["Rabi", "Winter"]⟩),
    ("Sugarcane", ⟨80, 150, 40, 80, 80, 150, 21, 35, 1000, 6, 15/2,
                   ["Loamy", "Black"], ["Whole Year", "Monsoon"]⟩),
    ("Jute",      ⟨60, 100, 30, 60, 30, 60, 24, 35, 1200, 6, 15/2,
                   ["Alluvial", "Clayey"], ["Kharif", "Monsoon"]⟩) ]

/-- The per-crop score accumulated by the loop body of
`predict_crops_simple`, including the final `min(100, score)`.  All the
point increments are integers, so the score is a natural number. -/
def cropScore (req : CropReq) (n p k temperature ph rainfall : ℚ)
    (soil_type season : String) : ℕ :=
  let sN := if req.nLo ≤ n ∧ n ≤ req.nHi then 15 else 0
  let sP := if req.pLo ≤ p ∧ p ≤ req.pHi then 12 else 0
  let sK := if req.kLo ≤ k ∧ k ≤ req.kHi then 13 else 0
  let sT := if req.tLo ≤ temperature ∧ temperature ≤ req.tHi then 20
            else if |temperature - (req.tLo + req.tHi) / 2| < 5 then 10
            else 0
  let sR := if req.rainfallMin ≤ rainfall then 15
            else if req.rainfallMin * (7/10) ≤ rainfall then 8
            else 0
  let sPh := if req.phLo ≤ ph ∧ ph ≤ req.phHi then 10
             else if |ph - (req.phLo + req.phHi) / 2| < 1/2 then 5
             else 0
  let sS := if soil_type ∈ req.soils then 10 else 0
  let sSe := if season ∈ req.seasons then 5 else 0
  min 100 (sN + sP + sK + sT + sR + sPh + sS + sSe)

/-- The full requirement-profile match: every range hit inclusively,
rainfall at least the minimum, soil and season admissible (the condition
under which every first branch of `cropScore` fires). -/
def matchesProfile (req : CropReq) (n p k temperature ph rainfall : ℚ)
    (soil_type season : String) : Prop :=
  req.nLo ≤ n ∧ n ≤ req.nHi ∧
  req.pLo ≤ p ∧ p ≤ req.pHi ∧
  req.kLo ≤ k ∧ k ≤ req.kHi ∧
  req.tLo ≤ temperature ∧ temperature ≤ req.tHi ∧
  req.rainfallMin ≤ rainfall ∧
  req.phLo ≤ ph ∧ ph ≤ req.phHi ∧
  soil_type ∈ req.soils ∧ season ∈ req.seasons

instance (req : CropReq) (n p k temperature ph rainfall : ℚ)
    (soil_type season : String) :
    Decidable (matchesProfile req n p k temperature ph rainfall soil_type season) := by
  unfold matchesProfile; infer_instance

/-- `predict_crops_simple` (src/simple_predictor.py): score every crop of
`crops_db`, sort descending by score (Python's stable `sorted` with
`reverse=True`), keep the top 3.  The scores are integers, so Python's
`round(conf, 2)` is the identity on them and the confidences are returned
as the scores themselves. -/
def predict_crops_simple (n p k temperature humidity ph rainfall : ℚ)
    (soil_type season region : String) : List (String × ℕ) :=
  let _ := humidity
  let _ := region
  let scores := crops_db.map
    (fun cr => (cr.1, cropScore cr.2 n p k temperature ph rainfall soil_type season))
  (scores.mergeSort (fun a b => decide (b.2 ≤ a.2))).take 3

/-- A live weather sample (temperature, humidity) as consumed by
`calculate_risk_scores`; the surrounding code fetches it over the network
and passes `None` when the city is empty, the API key is missing or the
lookup fails. -/
structure LiveWeather where
  temp : ℚ
  humidity : ℚ
deriving DecidableEq

/-- The dictionary returned by `calculate_risk_scores`. -/
structure RiskScores where
  drought_risk : ℤ
  flood_risk : ℤ
  current_temp : ℚ
  current_humidity : ℚ
deriving DecidableEq

/-- The humidity actually used: the live sample's humidity, or the fixed
fallback 50. -/
def humidityOf : Option LiveWeather → ℚ
  | some w => w.humidity
  | none => 50

/-- The temperature actually used: the live sample's temperature, or the
historical temperature. -/
def tempOf (hist_temp : ℚ) : Option LiveWeather → ℚ
  | some w => w.temp
  | none => hist_temp

/-- `ClimateRiskEngine.calculate_risk_scores` (src/modules/weather.py),
with the already-fetched optional live-weather sample passed in place of
the network lookup on the city name. -/
def calculate_risk_scores (weather : Option LiveWeather)
    (hist_rainfall hist_temp : ℚ) : RiskScores :=
  let temp := tempOf hist_temp weather
  let humidity := humidityOf weather
  let drought_score := qmax 0 (temp - 25) * 2 + qmax 0 (100 - humidity) * (1/2)
  let drought_score := if hist_rainfall < 500 then drought_score + 20 else drought_score
  let flood_score := hist_rainfall / 50 + humidity * (3/10)
  { drought_risk := imin 100 (pyRound drought_score)
    flood_risk := imin 100 (pyRound flood_score)
    current_temp := temp
    current_humidity := humidity }

/-- One entry of the crop list flowing through
`get_risk_adjusted_crops`: the dict with its `name`, `confidence` and
(possibly still unset, defaulted) `risk_adjusted_confidence` keys. -/
structure CropRec where
  name : String
  confidence : ℚ
  risk_adjusted_confidence : ℚ
deriving DecidableEq

/-- The `score_adj` value computed by the loop body of
`get_risk_adjusted_crops`: the drought branch first, then the flood
branch, which overwrites when its membership tests match and otherwise
leaves the drought value in place. -/
def scoreAdj (d_risk f_risk : ℤ) (name : String) : ℚ :=
  let a : ℚ :=
    if 60 < d_risk then
      if pyLower name ∈ ["millets", "pulses", "maize"] then 15
      else if pyLower name ∈ ["rice", "cotton"] then -20
      else 0
    else 0
  if 70 < f_risk then
    if pyLower name ∈ ["rice"] then 20
    else if pyLower name ∈ ["pulses", "maize"] then -25
    else a
  else a

/-- The per-crop update of `get_risk_adjusted_crops`: set
`risk_adjusted_confidence` to `max(0, min(100, confidence + score_adj))`,
always reading the original `confidence` field. -/
def adjustCrop (d_risk f_risk : ℤ) (c : CropRec) : CropRec :=
  { c with
      risk_adjusted_confidence :=
        qmax 0 (qmin 100 (c.confidence + scoreAdj d_risk f_risk c.name)) }

/-- `ClimateRiskEngine.get_risk_adjusted_crops` (src/modules/weather.py):
adjust every crop, then sort descending by `risk_adjusted_confidence`
(Python's stable `sorted` with `reverse=True`). -/
def get_risk_adjusted_crops (predictions : List CropRec) (risk : RiskScores) :
    List CropRec :=
  ((predictions.map (adjustCrop risk.drought_risk risk.flood_risk)).mergeSort
    (fun a b => decide (b.risk_adjusted_confidence ≤ a.risk_adjusted_confidence)))

/-- The classifier-output reduction inlined in the `predictcrop` route
(src/app.py): `np.argsort(probabilities)[-3:][::-1]` followed by
`round(probabilities[idx] * 100, 2)` and a label lookup.  `argsort` is
modelled as a stable sort of the index range by ascending probability
(the claims settled here use distinct probabilities, where any `argsort`
tie-breaking strategy agrees).  Confidence rounding to 2 decimals is
`pyRound` at two decimal places. -/
def round2 (q : ℚ) : ℚ := (pyRound (q * 100) : ℚ) / 100

/-- The top-3 extraction of the `predictcrop` route: indices of the 3
largest probabilities in descending order, mapped to `(label, confidence)`
pairs.  It performs no validation of the probability vector. -/
def predictcrop_top3 (probabilities : List ℚ) (labels : List String) :
    List (String × ℚ) :=
  let idxs := (List.range probabilities.length).mergeSort
    (fun i j => decide (probabilities.getD i 0 ≤ probabilities.getD j 0))
  let top := idxs.reverse.take 3
  top.map (fun idx => (labels.getD idx "", round2 (probabilities.getD idx 0 * 100)))

/-! ### Helper lemmas -/

theorem qmax_nonneg_left (x : ℚ) : 0 ≤ qmax 0 x := by
  unfold qmax; split <;> linarith

theorem le_qmax_left (a b : ℚ) : a ≤ qmax a b := by
  unfold qmax; split <;> linarith

theorem imin_le_left (a b : ℤ) : imin a b ≤ a := by
  unfold imin; split <;> omega

theorem le_imin (n a b : ℤ) (ha : n ≤ a) (hb : n ≤ b) : n ≤ imin a b := by
  unfold imin; split <;> omega

theorem floor_le_pyRound (q : ℚ) : ⌊q⌋ ≤ pyRound q := by
  unfold pyRound
  simp only []
  split_ifs <;> omega

theorem le_pyRound (n : ℤ) (q : ℚ) (h : (n : ℚ) ≤ q) : n ≤ pyRound q :=
  le_trans (Int.le_floor.mpr h) (floor_le_pyRound q)

theorem scoreAdj_of_low_risk (d f : ℤ) (name : String)
    (hd : d ≤ 60) (hf : f ≤ 70) : scoreAdj d f name = 0 := by
  unfold scoreAdj
  rw [if_neg (by omega), if_neg (by omega)]

theorem clamp01_mono {a b : ℚ} (h : a ≤ b) :
    qmax 0 (qmin 100 a) ≤ qmax 0 (qmin 100 b) := by
  unfold qmax qmin
  split_ifs <;> linarith

theorem radj_le_trans (a b c : CropRec)
    (hab : decide (b.risk_adjusted_confidence ≤ a.risk_adjusted_confidence))
    (hbc : decide (c.risk_adjusted_confidence ≤ b.risk_adjusted_confidence)) :
    decide (c.risk_adjusted_confidence ≤ a.risk_adjusted_confidence) := by
  simp only [decide_eq_true_eq] at *
  exact le_trans hbc hab

theorem radj_le_total (a b : CropRec) :
    (decide (b.risk_adjusted_confidence ≤ a.risk_adjusted_confidence) ||
     decide (a.risk_adjusted_confidence ≤ b.risk_adjusted_confidence)) = true := by
  simp only [Bool.or_eq_true, decide_eq_true_eq]
  exact le_total _ _

theorem adjustCrop_idem (d f : ℤ) (c : CropRec) :
    adjustCrop d f (adjustCrop d f c) = adjustCrop d f c := rfl

/-! ### Claim theorems -/

/-- C1: for every input vector whose values all satisfy one cataloged
crop's full requirement profile (N, P, K, temperature and pH inside the
inclusive ranges, rainfall at least the crop's minimum, soil type and
season in the admissible sets), the rule-based scorer assigns that crop a
score of exactly 100. -/
theorem C1_full_profile_scores_100 (cr : String × CropReq) (_hmem : cr ∈ crops_db)
    (n p k temperature ph rainfall : ℚ) (soil_type season : String)
    (h : matchesProfile cr.2 n p k temperature ph rainfall soil_type season) :
    cropScore cr.2 n p k temperature ph rainfall soil_type season = 100 := by
  obtain ⟨h1, h2, h3, h4, h5, h6, h7, h8, h9, h10, h11, h12, h13⟩ := h
  unfold cropScore
  rw [if_pos ⟨h1, h2⟩, if_pos ⟨h3, h4⟩, if_pos ⟨h5, h6⟩, if_pos ⟨h7, h8⟩,
    if_pos h9, if_pos ⟨h10, h11⟩, if_pos h12, if_pos h13]
  rfl

/-- Witness for C1: the catalog's Rice entry together with an input hitting
its full profile scores exactly 100. -/
theorem C1_witness :
    crops_db.get ⟨0, by decide⟩ ∈ crops_db ∧
    matchesProfile (crops_db.get ⟨0, by decide⟩).2 100 50 50 25 6 1000 "Clayey" "Kharif" ∧
    cropScore (crops_db.get ⟨0, by decide⟩).2 100 50 50 25 6 1000 "Clayey" "Kharif" = 100 :=
  ⟨by decide, by decide,
    C1_full_profile_scores_100 _ (by decide) 100 50 50 25 6 1000 "Clayey" "Kharif" (by decide)⟩

/-- C2 (amended): the rule-based scorer scores every crop of the catalog
but returns only the top 3 of them, sorted descending by score — the
truncation to K = 3 happens inside `predict_crops_simple`, not in the
caller; every returned entry is a cataloged crop paired with its computed
score, and the returned entries are maximal: every cataloged crop whose
(name, score) pair is omitted from the output scores at most the score of
every returned entry. -/
theorem C2_top3_of_all_scored (n p k temperature humidity ph rainfall : ℚ)
    (soil_type season region : String) :
    (predict_crops_simple n p k temperature humidity ph rainfall soil_type season region).length = 3 ∧
    (predict_crops_simple n p k temperature humidity ph rainfall soil_type season region).Pairwise
      (fun a b => b.2 ≤ a.2) ∧
    (∀ x ∈ predict_crops_simple n p k temperature humidity ph rainfall soil_type season region,
      ∃ cr ∈ crops_db, x = (cr.1, cropScore cr.2 n p k temperature ph rainfall soil_type season)) ∧
    (∀ cr ∈ crops_db,
      (cr.1, cropScore cr.2 n p k temperature ph rainfall soil_type season)
          ∉ predict_crops_simple n p k temperature humidity ph rainfall soil_type season region →
      ∀ x ∈ predict_crops_simple n p k temperature humidity ph rainfall soil_type season region,
        cropScore cr.2 n p k temperature ph rainfall soil_type season ≤ x.2) := by
  unfold predict_crops_simple
  have hs := @List.sorted_mergeSort (String × ℕ)
    (fun a b => decide (b.2 ≤ a.2))
    (by intro a b c hab hbc; simp only [decide_eq_true_eq] at *; omega)
    (by intro a b; simp only [Bool.or_eq_true, decide_eq_true_eq]; omega)
    (crops_db.map
      (fun cr => (cr.1, cropScore cr.2 n p k temperature ph rainfall soil_type season)))
  refine ⟨?_, ?_, ?_, ?_⟩
  · rw [List.length_take, List.length_mergeSort, List.length_map]
    rfl
  · apply List.Pairwise.sublist (List.take_sublist _ _)
    exact hs.imp (fun hab => by simpa using hab)
  · intro x hx
    have hx' := List.mem_of_mem_take hx
    rw [List.mem_mergeSort] at hx'
    obtain ⟨cr, hcr, rfl⟩ := List.mem_map.mp hx'
    exact ⟨cr, hcr, rfl⟩
  · intro cr hcr hnot x hx
    have hsplit := List.take_append_drop 3
      ((crops_db.map
        (fun cr => (cr.1, cropScore cr.2 n p k temperature ph rainfall soil_type season))).mergeSort
        (fun a b => decide (b.2 ≤ a.2)))
    have hmem : (cr.1, cropScore cr.2 n p k temperature ph rainfall soil_type season)
        ∈ (crops_db.map
          (fun cr => (cr.1, cropScore cr.2 n p k temperature ph rainfall soil_type season))).mergeSort
          (fun a b => decide (b.2 ≤ a.2)) := by
      rw [List.mem_mergeSort]
      exact List.mem_map.mpr ⟨cr, hcr, rfl⟩
    rw [← hsplit] at hmem
    have hdrop : (cr.1, cropScore cr.2 n p k temperature ph rainfall soil_type season)
        ∈ ((crops_db.map
          (fun cr => (cr.1, cropScore cr.2 n p k temperature ph rainfall soil_type season))).mergeSort
          (fun a b => decide (b.2 ≤ a.2))).drop 3 := by
      rcases List.mem_append.mp hmem with h | h
      · exact absurd h hnot
      · exact h
    rw [← hsplit] at hs
    have hcross := (List.pairwise_append.mp hs).2.2 x hx _ hdrop
    simpa using hcross

/-- Counterexample to C2 as stated: the scorer's output at a concrete
input has only 3 entries while the profile store has 8 crops, and the
cataloged crop Pulses appears in no output entry — the output does not
contain a CropScore for every cataloged crop, because `predict_crops_simple`
itself truncates to the top 3. -/
theorem C2_counterexample :
    predict_crops_simple 100 50 50 25 50 6 1000 "Clayey" "Kharif" "North"
      = [("Rice", 100), ("Wheat", 95), ("Jute", 93)] ∧
    crops_db.length = 8 ∧
    ∀ x ∈ predict_crops_simple 100 50 50 25 50 6 1000 "Clayey" "Kharif" "North",
      x.1 ≠ "Pulses" := by
  refine ⟨by decide, by decide, by decide⟩

/-- C3 (amended): the climate risk estimator's drought and flood scores
are clamped above at 100 and are nonnegative provided the historical
rainfall and the humidity actually used (live or fallback) are
nonnegative; there is no lower clamp, so a negative historical rainfall
can drive `flood_risk` below 0 (see the counterexample). -/
theorem C3_risk_bounds (live : Option LiveWeather) (rain temp : ℚ)
    (hrain : 0 ≤ rain) (hhum : 0 ≤ humidityOf live) :
    0 ≤ (calculate_risk_scores live rain temp).drought_risk ∧
    (calculate_risk_scores live rain temp).drought_risk ≤ 100 ∧
    0 ≤ (calculate_risk_scores live rain temp).flood_risk ∧
    (calculate_risk_scores live rain temp).flood_risk ≤ 100 := by
  unfold calculate_risk_scores
  have hbase : (0:ℚ) ≤ qmax 0 (tempOf temp live - 25) * 2
      + qmax 0 (100 - humidityOf live) * (1/2) := by
    have h1 := qmax_nonneg_left (tempOf temp live - 25)
    have h2 := qmax_nonneg_left (100 - humidityOf live)
    linarith
  refine ⟨?_, ?_, ?_, ?_⟩
  · apply le_imin 0 _ _ (by norm_num)
    apply le_pyRound 0
    push_cast
    split_ifs <;> linarith
  · exact imin_le_left _ _
  · apply le_imin 0 _ _ (by norm_num)
    apply le_pyRound 0
    push_cast
    have h1 : (0:ℚ) ≤ rain / 50 := by positivity
    have h2 : (0:ℚ) ≤ humidityOf live * (3/10) := by
      have := hhum; positivity
    linarith
  · exact imin_le_left _ _

/-- Witness for C3: the amended bounds at the fallback case with
historical rainfall 300 and temperature 30. -/
theorem C3_witness :
    (0:ℚ) ≤ 300 ∧ 0 ≤ humidityOf none ∧
    (0 ≤ (calculate_risk_scores none 300 30).drought_risk ∧
     (calculate_risk_scores none 300 30).drought_risk ≤ 100 ∧
     0 ≤ (calculate_risk_scores none 300 30).flood_risk ∧
     (calculate_risk_scores none 300 30).flood_risk ≤ 100) :=
  ⟨by decide, by decide, C3_risk_bounds none 300 30 (by decide) (by decide)⟩

/-- Counterexample to C3 as stated: with a negative historical rainfall of
−800 mm (and no live weather), the estimator returns flood_risk = −1,
which is negative — the code clamps the scores above with `min(100, ·)`
but never below. -/
theorem C3_counterexample :
    calculate_risk_scores none (-800) 30 = ⟨55, -1, 30, 50⟩ ∧
    (calculate_risk_scores none (-800) 30).flood_risk < 0 := by
  exact ⟨by decide, by decide⟩

/-- C4: with no live weather sample, historical rainfall 300 mm and
historical temperature 30 °C, the estimator returns drought_risk = 55
(10 from temperature, 25 from the fallback humidity 50, +20 because
300 < 500) and flood_risk = 21 (300/50 + 50·0.3). -/
theorem C4_fallback_example :
    calculate_risk_scores none 300 30
      = { drought_risk := 55, flood_risk := 21, current_temp := 30, current_humidity := 50 } := by
  decide

/-- C5: in the risk-adjusted ranker, when both thresholds are exceeded
(drought_risk > 60 and flood_risk > 70), a crop matched by both a drought
rule and a flood rule (lower-cased name among rice, pulses, maize)
receives exactly the flood rule's adjustment — +20 for rice, −25 for
pulses and maize — because the flood branch is evaluated second and
overwrites the drought branch's value rather than accumulating. -/
theorem C5_flood_overwrites_drought (d f : ℤ) (name : String) (conf r : ℚ)
    (hd : 60 < d) (hf : 70 < f)
    (hboth : pyLower name ∈ ["rice", "pulses", "maize"]) :
    scoreAdj d f name = (if pyLower name = "rice" then 20 else -25) ∧
    (adjustCrop d f ⟨name, conf, r⟩).risk_adjusted_confidence
      = qmax 0 (qmin 100 (conf + (if pyLower name = "rice" then 20 else -25))) := by
  have hadj : scoreAdj d f name = (if pyLower name = "rice" then 20 else -25) := by
    simp only [scoreAdj]
    rw [if_pos hf, if_pos hd]
    simp only [List.mem_cons, List.not_mem_nil, or_false] at hboth
    rcases hboth with h | h | h <;> rw [h] <;> simp
  refine ⟨hadj, ?_⟩
  simp only [adjustCrop]
  rw [hadj]

/-- Witness for C5: Maize with confidence 60 at drought_risk 61 and
flood_risk 71 takes the flood rule's −25 (not +15, not −10). -/
theorem C5_witness :
    (60:ℤ) < 61 ∧ (70:ℤ) < 71 ∧ pyLower "Maize" ∈ ["rice", "pulses", "maize"] ∧
    (scoreAdj 61 71 "Maize" = (if pyLower "Maize" = "rice" then 20 else -25) ∧
     (adjustCrop 61 71 ⟨"Maize", 60, 0⟩).risk_adjusted_confidence
       = qmax 0 (qmin 100 (60 + (if pyLower "Maize" = "rice" then 20 else -25)))) :=
  ⟨by decide, by decide, by decide,
    C5_flood_overwrites_drought 61 71 "Maize" 60 0 (by decide) (by decide) (by decide)⟩

/-- Counterexample to C6 as stated: at drought_risk = 70 and
flood_risk = 0 no cataloged crop receives a −25 adjustment — the drought
penalty in the code is −20 (for rice and cotton), the bonus +15 (for
millets, pulses, maize), and every other crop gets 0.  The claimed "−25
drought penalty" does not exist. -/
theorem C6_counterexample :
    scoreAdj 70 0 "Rice" = -20 ∧ scoreAdj 70 0 "Cotton" = -20 ∧
    scoreAdj 70 0 "Millets" = 15 ∧ scoreAdj 70 0 "Pulses" = 15 ∧
    scoreAdj 70 0 "Maize" = 15 ∧ scoreAdj 70 0 "Wheat" = 0 ∧
    scoreAdj 70 0 "Sugarcane" = 0 ∧ scoreAdj 70 0 "Jute" = 0 := by
  decide

/-- C6 (amended): with drought_risk = 70 and flood_risk = 0 the ranker
maps Millets with confidence 60 to risk_adjusted_confidence 75, Rice with
confidence 80 to 60, and clamps at the bounds: Rice with confidence 5
receiving the −20 drought penalty yields 0, not −15. -/
theorem C6_drought_examples :
    get_risk_adjusted_crops [⟨"Millets", 60, 0⟩] ⟨70, 0, 0, 0⟩ = [⟨"Millets", 60, 75⟩] ∧
    get_risk_adjusted_crops [⟨"Rice", 80, 0⟩] ⟨70, 0, 0, 0⟩ = [⟨"Rice", 80, 60⟩] ∧
    get_risk_adjusted_crops [⟨"Rice", 5, 0⟩] ⟨70, 0, 0, 0⟩ = [⟨"Rice", 5, 0⟩] := by
  refine ⟨?_, ?_, ?_⟩ <;>
    (simp only [get_risk_adjusted_crops, List.map_cons, List.map_nil,
       List.mergeSort_singleton]
     decide)

/-- C7: the risk adjustment always recomputes from the original
`confidence` field, never from a previously computed
`risk_adjusted_confidence`, so re-applying the ranker to its own output
with the same risk scores returns the identical list. -/
theorem C7_reapply_fixed_point (l : List CropRec) (rs : RiskScores) :
    get_risk_adjusted_crops (get_risk_adjusted_crops l rs) rs
      = get_risk_adjusted_crops l rs := by
  unfold get_risk_adjusted_crops
  have h1 : ∀ x ∈ (l.map (adjustCrop rs.drought_risk rs.flood_risk)).mergeSort
      (fun a b => decide (b.risk_adjusted_confidence ≤ a.risk_adjusted_confidence)),
      adjustCrop rs.drought_risk rs.flood_risk x = x := by
    intro x hx
    rw [List.mem_mergeSort] at hx
    obtain ⟨y, _, rfl⟩ := List.mem_map.mp hx
    exact adjustCrop_idem _ _ y
  rw [(List.map_congr_left h1).trans (List.map_id _)]
  exact List.mergeSort_of_sorted (List.sorted_mergeSort radj_le_trans radj_le_total _)

/-- C8 (amended): the classifier-output reduction of the `predictcrop`
route performs no validation and cannot fail: any probability vector,
of any length, is reduced to `min 3 (length of the vector)` ranked
entries.  There is no `InvalidDistributionError` anywhere in the code,
and the route never falls back to the rule-based scorer (`predict_crops_simple`
is not even imported by src/app.py); exceptions in the route are caught by
a blanket handler that flashes the message and redirects. -/
theorem C8_no_validation (probabilities : List ℚ) (labels : List String) :
    (predictcrop_top3 probabilities labels).length = min 3 probabilities.length := by
  unfold predictcrop_top3
  rw [List.length_map, List.length_take, List.length_reverse,
    List.length_mergeSort, List.length_range]

/-- Counterexample to C8 as stated: a malformed probability vector of
length 2 against 3 labels is reduced without any failure, yielding two
ranked entries — no `InvalidDistributionError` and no fallback occurs. -/
theorem C8_counterexample :
    predictcrop_top3 [7/10, 1/5] ["A", "B", "C"] = [("A", 70), ("B", 20)] ∧
    ([7/10, 1/5] : List ℚ).length ≠ (["A", "B", "C"] : List String).length :=
  ⟨by decide, by decide⟩

/-- C9: whenever no live weather sample is available, the fallback
humidity 50 contributes a fixed 25 points to the drought score, so the
returned drought_risk is at least 25 regardless of the historical
temperature and rainfall. -/
theorem C9_fallback_drought_at_least_25 (rain temp : ℚ) :
    25 ≤ (calculate_risk_scores none rain temp).drought_risk := by
  unfold calculate_risk_scores
  apply le_imin 25 _ _ (by norm_num)
  apply le_pyRound 25
  have h1 : (0:ℚ) ≤ qmax 0 (tempOf temp none - 25) * 2 :=
    mul_nonneg (qmax_nonneg_left _) (by norm_num)
  have h2 : qmax 0 (100 - humidityOf none) * (1/2) = 25 := by
    simp only [humidityOf, qmax]
    norm_num
  push_cast
  split_ifs <;> linarith

theorem clamp01_eq_self {x : ℚ} (h0 : 0 ≤ x) (h1 : x ≤ 100) :
    qmax 0 (qmin 100 x) = x := by
  unfold qmax qmin
  split_ifs <;> linarith

/-- C10: when drought_risk ≤ 60 and flood_risk ≤ 70 the adjustment is the
identity on confidences: the ranker returns the input list in its
original order (it equals the input mapped through the per-crop update),
every crop's risk_adjusted_confidence is its confidence clamped to
[0,100], and exactly its confidence when that already lies in [0,100] —
provided the input list is ranked (sorted descending by confidence). -/
theorem C10_low_risk_identity (l : List CropRec) (rs : RiskScores)
    (hd : rs.drought_risk ≤ 60) (hf : rs.flood_risk ≤ 70)
    (hsorted : l.Pairwise (fun a b => b.confidence ≤ a.confidence)) :
    get_risk_adjusted_crops l rs = l.map (adjustCrop rs.drought_risk rs.flood_risk) ∧
    (∀ c ∈ get_risk_adjusted_crops l rs,
      c.risk_adjusted_confidence = qmax 0 (qmin 100 c.confidence)) ∧
    (∀ c ∈ get_risk_adjusted_crops l rs,
      0 ≤ c.confidence → c.confidence ≤ 100 →
        c.risk_adjusted_confidence = c.confidence) := by
  have hadj : ∀ c : CropRec, adjustCrop rs.drought_risk rs.flood_risk c
      = ⟨c.name, c.confidence, qmax 0 (qmin 100 c.confidence)⟩ := by
    intro c
    unfold adjustCrop
    rw [scoreAdj_of_low_risk _ _ _ hd hf, add_zero]
  have hmain : get_risk_adjusted_crops l rs
      = l.map (adjustCrop rs.drought_risk rs.flood_risk) := by
    unfold get_risk_adjusted_crops
    apply List.mergeSort_of_sorted
    rw [List.pairwise_map]
    apply hsorted.imp
    intro a b hab
    simp only [hadj, decide_eq_true_eq]
    exact clamp01_mono hab
  have hfield : ∀ c ∈ get_risk_adjusted_crops l rs,
      c.risk_adjusted_confidence = qmax 0 (qmin 100 c.confidence) := by
    intro c hc
    rw [hmain] at hc
    obtain ⟨y, _, rfl⟩ := List.mem_map.mp hc
    rw [hadj y]
  refine ⟨hmain, hfield, ?_⟩
  intro c hc h0 h100
  rw [hfield c hc]
  exact clamp01_eq_self h0 h100

/-- Witness for C10: a ranked two-crop list under low risk scores is
returned unchanged up to the per-crop update. -/
theorem C10_witness :
    (⟨20, 20, 25, 50⟩ : RiskScores).drought_risk ≤ 60 ∧
    (⟨20, 20, 25, 50⟩ : RiskScores).flood_risk ≤ 70 ∧
    ([⟨"Rice", 80, 0⟩, ⟨"Maize", 60, 0⟩] : List CropRec).Pairwise
      (fun a b => b.confidence ≤ a.confidence) ∧
    (get_risk_adjusted_crops [⟨"Rice", 80, 0⟩, ⟨"Maize", 60, 0⟩] ⟨20, 20, 25, 50⟩
        = ([⟨"Rice", 80, 0⟩, ⟨"Maize", 60, 0⟩] : List CropRec).map (adjustCrop 20 20) ∧
     (∀ c ∈ get_risk_adjusted_crops [⟨"Rice", 80, 0⟩, ⟨"Maize", 60, 0⟩] ⟨20, 20, 25, 50⟩,
        c.risk_adjusted_confidence = qmax 0 (qmin 100 c.confidence)) ∧
     (∀ c ∈ get_risk_adjusted_crops [⟨"Rice", 80, 0⟩, ⟨"Maize", 60, 0⟩] ⟨20, 20, 25, 50⟩,
        0 ≤ c.confidence → c.confidence ≤ 100 →
          c.risk_adjusted_confidence = c.confidence)) :=
  ⟨by decide, by decide, by decide,
    C10_low_risk_identity [⟨"Rice", 80, 0⟩, ⟨"Maize", 60, 0⟩] ⟨20, 20, 25, 50⟩
      (by decide) (by decide) (by decide)⟩

end CropAdvisor
